import Mathlib

/-!
# Verification of the ccNexus control-plane operations

Shallow embedding of the Go sources of ccNexus (a local reverse proxy for
LLM upstreams) and proofs about the behaviour of its control-plane
operations: endpoint CRUD, port update, the one-shot connection test, the
host process exit codes, and the per-upstream statistics discipline.

Strings are modelled as `List Char`; Go's `strings.TrimPrefix` /
`strings.TrimSuffix` are embedded verbatim on that representation.
-/

set_option maxHeartbeats 1000000

/-- Go strings are modelled as lists of characters. -/
abbrev Str := List Char

/-- Go `strings.TrimPrefix(s, pre)`: removes one occurrence of the leading
prefix, or returns `s` unchanged. -/
def trimPrefix (s pre : Str) : Str :=
  if pre.isPrefixOf s then s.drop pre.length else s

/-- Go `strings.TrimSuffix(s, suf)`: removes one occurrence of the trailing
suffix, or returns `s` unchanged. -/
def trimSuffix (s suf : Str) : Str :=
  if suf.isSuffixOf s then s.take (s.length - suf.length) else s

/-- The literal `"https://"`. -/
def strHttpsScheme : Str := ("https://".toList)

/-- The literal `"http://"`. -/
def strHttpScheme : Str := ("http://".toList)

/-- The literal `"/"`. -/
def strSlash : Str := ("/".toList)

/-- The literal `"//"`. -/
def strDoubleSlash : Str := ("//".toList)

/-- Function `normalizeAPIUrl` from `src/app.go`: trims a leading `https://`, then a
leading `http://`, then a trailing `/`. -/
def normalizeAPIUrl (apiUrl : Str) : Str :=
  trimSuffix (trimPrefix (trimPrefix apiUrl strHttpsScheme) strHttpScheme) strSlash

/-- The two scheme-stripping steps of `normalizeAPIUrl`, before the
trailing-slash trim. -/
def stripSchemes (apiUrl : Str) : Str :=
  trimPrefix (trimPrefix apiUrl strHttpsScheme) strHttpScheme

/-- The literal `"claude"`. -/
def strClaude : Str := ("claude".toList)

/-- The literal `"openai"`. -/
def strOpenai : Str := ("openai".toList)

/-- The literal `"gemini"`. -/
def strGemini : Str := ("gemini".toList)

/-- Record `config.Endpoint` (fields `Name`, `APIUrl`, `APIKey`, `Enabled`,
`Transformer`, `Model`, `Remark`). -/
structure Endpoint where
  name : Str
  apiUrl : Str
  apiKey : Str
  enabled : Bool
  transformer : Str
  model : Str
  remark : Str
deriving DecidableEq, Repr

/-- Default value used for out-of-range list reads (the Go code never reads
out of range: every access is behind a bounds check). -/
def dfltEndpoint : Endpoint :=
  { name := [], apiUrl := [], apiKey := [], enabled := false,
    transformer := [], model := [], remark := [] }

/-- View an `Except` as a `Sum`, to derive decidable equality. -/
def exceptToSum {ε α : Type} : Except ε α → ε ⊕ α
  | .error e => .inl e
  | .ok a => .inr a

theorem exceptToSum_inj {ε α : Type} (a b : Except ε α) :
    exceptToSum a = exceptToSum b ↔ a = b := by
  cases a <;> cases b <;> simp [exceptToSum]

instance {ε α : Type} [DecidableEq ε] [DecidableEq α] : DecidableEq (Except ε α) :=
  fun a b => decidable_of_iff _ (exceptToSum_inj a b)

/-- Errors surfaced by the App operations. The numeric payloads stand for
the values Go interpolates into its `fmt.Errorf` messages. -/
inductive AppError
  | invalidIndex (i : Int)
  | invalidPort (p : Int)
  | invalidPool
deriving DecidableEq, Repr

/-- Modelled from the spec: `config.Validate` (package `internal/config`,
not under `src/`).  Per §4.1 the pool is invalid when names are non-unique,
any name is empty, or any non-Claude upstream has an empty default model,
and per §3 validation requires at least one upstream with `enabled=true`
(hence an empty list is rejected). -/
def validateEndpoints (eps : List Endpoint) : Except AppError Unit :=
  if eps.any fun e => e.name = [] then .error .invalidPool
  else if (eps.map Endpoint.name).Nodup then
    if eps.any fun e => (if e.transformer = [] then strClaude else e.transformer) ≠ strClaude ∧ e.model = [] then
      .error .invalidPool
    else if eps.any Endpoint.enabled then .ok ()
    else .error .invalidPool
  else .error .invalidPool

/-- Method `App.AddEndpoint` from `src/app.go`, at the level of the endpoint list
it manipulates.  The Go method installs the new list into the config
*before* validating, so the first component is the stored list in every
case and the second component reports the validation outcome.  The
`proxy.UpdateConfig` and `config.Save` calls on the success path are I/O
against collaborators outside `src/` and are not modelled. -/
def addEndpoint (eps : List Endpoint) (name apiUrl apiKey transformer model remark : Str) :
    List Endpoint × Except AppError Unit :=
  let transformer := if transformer = [] then strClaude else transformer
  let apiUrl := normalizeAPIUrl apiUrl
  let eps' := eps ++ [{ name, apiUrl, apiKey, enabled := true, transformer, model, remark }]
  (eps', validateEndpoints eps')

/-- Method `App.RemoveEndpoint` from `src/app.go`: bounds check, removal, then
validation — which is skipped when no endpoints are left. -/
def removeEndpoint (eps : List Endpoint) (index : Int) :
    List Endpoint × Except AppError Unit :=
  if index < 0 ∨ (eps.length : Int) ≤ index then (eps, .error (.invalidIndex index))
  else
    let i := index.toNat
    let eps' := eps.take i ++ eps.drop (i + 1)
    if 0 < eps'.length then (eps', validateEndpoints eps')
    else (eps', .ok ())

/-- Method `App.UpdateEndpoint` from `src/app.go`: bounds check, preserve the
`Enabled` flag, default the transformer to `"claude"`, normalize the URL,
replace the record, then validate. -/
def updateEndpoint (eps : List Endpoint) (index : Int)
    (name apiUrl apiKey transformer model remark : Str) :
    List Endpoint × Except AppError Unit :=
  if index < 0 ∨ (eps.length : Int) ≤ index then (eps, .error (.invalidIndex index))
  else
    let i := index.toNat
    let enabled := (eps.getD i dfltEndpoint).enabled
    let transformer := if transformer = [] then strClaude else transformer
    let apiUrl := normalizeAPIUrl apiUrl
    let eps' := eps.set i { name, apiUrl, apiKey, enabled, transformer, model, remark }
    (eps', validateEndpoints eps')

/-- Method `App.ToggleEndpoint` from `src/app.go`: bounds check, then flip the
flag.  The Go method performs no `Validate` call. -/
def toggleEndpoint (eps : List Endpoint) (index : Int) (enabled : Bool) :
    List Endpoint × Except AppError Unit :=
  if index < 0 ∨ (eps.length : Int) ≤ index then (eps, .error (.invalidIndex index))
  else
    let i := index.toNat
    let ep := eps.getD i dfltEndpoint
    (eps.set i { ep with enabled }, .ok ())

/-- The App state relevant to the port-update operation: the port stored in
the configuration file versus the port the proxy listener is actually bound
to. -/
structure AppNet where
  configPort : Int
  listenPort : Int
deriving DecidableEq, Repr

/-- Method `App.UpdatePort` from `src/app.go`: validates the range, stores the new
port in the configuration and saves it.  The proxy is not touched — the
source comments `// Note: Changing port requires restart`, and the frontend
(`savePort` in `modal.js`) tells the user to restart. -/
def updatePort (s : AppNet) (port : Int) : AppNet × Except AppError Unit :=
  if port < 1 ∨ 65535 < port then (s, .error (.invalidPort port))
  else ({ s with configPort := port }, .ok ())

/-- The literal `"gemini-pro"` (default Gemini test model). -/
def strGeminiPro : Str := ("gemini-pro".toList)

/-- The literal `"/v1/messages"`. -/
def pathMessages : Str := ("/v1/messages".toList)

/-- The literal `"/v1/chat/completions"`. -/
def pathChatCompletions : Str := ("/v1/chat/completions".toList)

/-- The literal `"/v1beta/models/"`. -/
def pathGeminiModels : Str := ("/v1beta/models/".toList)

/-- The literal `":generateContent"`. -/
def pathGenerateContent : Str := (":generateContent".toList)

/-- The literal `"Content-Type"`. -/
def hdrContentType : Str := ("Content-Type".toList)

/-- The literal `"application/json"`. -/
def valAppJson : Str := ("application/json".toList)

/-- The literal `"x-api-key"`. -/
def hdrXApiKey : Str := ("x-api-key".toList)

/-- The literal `"anthropic-version"`. -/
def hdrAnthropicVersion : Str := ("anthropic-version".toList)

/-- The literal `"2023-06-01"`. -/
def valAnthropicVersion : Str := ("2023-06-01".toList)

/-- The literal `"Authorization"`. -/
def hdrAuthorization : Str := ("Authorization".toList)

/-- The literal `"Bearer "`. -/
def strBearer : Str := ("Bearer ".toList)

/-- The literal `"key"` (Gemini query parameter). -/
def strKeyParam : Str := ("key".toList)

/-- The effective transformer of an endpoint (`if transformer == "" {
transformer = "claude" }` in `TestEndpoint`). -/
def effTransformer (ep : Endpoint) : Str :=
  if ep.transformer = [] then strClaude else ep.transformer

/-- The outbound HTTP request `TestEndpoint` builds: full URL, headers and
query parameters in the order the source sets them.  The JSON request body
(model / test message / max-tokens) carries no information the claims are
about and is not modelled. -/
structure TestRequest where
  url : Str
  headers : List (Str × Str)
  query : List (Str × Str)
deriving DecidableEq, Repr

/-- The request-building part of `App.TestEndpoint` (`src/app.go`): switch
on the transformer kind to pick path and default model, force the `https://`
scheme onto the stored host, set `Content-Type`, and place the credential
per kind — `x-api-key` plus `anthropic-version` for claude,
`Authorization: Bearer` for openai, the `key` query parameter for gemini.
`none` is the `Unsupported transformer` early return. -/
def buildTestRequest (ep : Endpoint) : Option TestRequest :=
  if effTransformer ep = strClaude then
    some { url := strHttpsScheme ++ ep.apiUrl ++ pathMessages
           headers := [(hdrContentType, valAppJson), (hdrXApiKey, ep.apiKey),
                       (hdrAnthropicVersion, valAnthropicVersion)]
           query := [] }
  else if effTransformer ep = strOpenai then
    some { url := strHttpsScheme ++ ep.apiUrl ++ pathChatCompletions
           headers := [(hdrContentType, valAppJson),
                       (hdrAuthorization, strBearer ++ ep.apiKey)]
           query := [] }
  else if effTransformer ep = strGemini then
    some { url := strHttpsScheme ++ ep.apiUrl ++
             (pathGeminiModels ++ (if ep.model = [] then strGeminiPro else ep.model) ++
               pathGenerateContent)
           headers := [(hdrContentType, valAppJson)]
           query := [(strKeyParam, ep.apiKey)] }
  else none

/-- What the network does with the dispatched test probe. -/
inductive HttpRes
  | transportError (msg : Str)
  | response (status : Nat) (body : Str)
deriving DecidableEq, Repr

/-- The JSON result `TestEndpoint` returns to the UI.  The message-text
extraction from the upstream JSON body is abstracted; the `success` flag
follows the source exactly. -/
structure TestResult where
  success : Bool
  message : Str
deriving DecidableEq, Repr

/-- Go value `http.Client{Timeout: 30 * time.Second}` — the client `TestEndpoint`
constructs freshly for its own probe (it never goes through the engine's
shared client, which lives in `internal/proxy`). -/
structure HttpClient where
  timeoutSeconds : Nat
deriving DecidableEq, Repr

/-- The dedicated client built inside `App.TestEndpoint`. -/
def testEndpointClient : HttpClient := { timeoutSeconds := 30 }

/-- Per-upstream counters of the statistics store (`EndpointStat`). -/
structure EndpointStat where
  requests : Nat
  errors : Nat
  inputTokens : Nat
  outputTokens : Nat
  lastUsed : Nat
deriving DecidableEq, Repr

/-- The all-zero counters a fresh name starts from. -/
def emptyStat : EndpointStat :=
  { requests := 0, errors := 0, inputTokens := 0, outputTokens := 0, lastUsed := 0 }

/-- The statistics store: counters keyed by upstream name. -/
abbrev StatsMap := List (Str × EndpointStat)

/-- Read the counters for a name (zero for an unseen name). -/
def getStat : StatsMap → Str → EndpointStat
  | [], _ => emptyStat
  | (k, v) :: rest, n => if k = n then v else getStat rest n

/-- Write the counters for a name, appending on first sighting. -/
def setStat : StatsMap → Str → EndpointStat → StatsMap
  | [], n, v => [(n, v)]
  | (k, w) :: rest, n, v =>
    if k = n then (k, v) :: rest else (k, w) :: setStat rest n v

/-- Modelled from the spec: `RecordAttempt(name)` of the statistics store
(`internal/proxy`, not under `src/`) — `requests += 1`, `lastUsed = now`. -/
def recordAttempt (m : StatsMap) (n : Str) (now : Nat) : StatsMap :=
  let s := getStat m n
  setStat m n { s with requests := s.requests + 1, lastUsed := now }

/-- Modelled from the spec: `RecordError(name)` — `errors += 1`. -/
def recordError (m : StatsMap) (n : Str) : StatsMap :=
  let s := getStat m n
  setStat m n { s with errors := s.errors + 1 }

/-- Modelled from the spec: `RecordTokens(name, in, out)`. -/
def recordTokens (m : StatsMap) (n : Str) (tin tout : Nat) : StatsMap :=
  let s := getStat m n
  setStat m n { s with inputTokens := s.inputTokens + tin,
                       outputTokens := s.outputTokens + tout }

/-- How one logical request against an upstream ends. -/
inductive ReqOutcome
  | failed
  | succeeded (tin tout : Nat)
deriving DecidableEq, Repr

/-- One logical request as the engine accounts for it. -/
structure LogicalRequest where
  name : Str
  now : Nat
  outcome : ReqOutcome
deriving DecidableEq, Repr

/-- Modelled from the spec: the per-request ordering discipline of §4.2 —
`RecordAttempt` precedes the single `RecordError` or `RecordTokens` of the
same logical request.  The counters commute across names, so sequential
processing covers the interleavings of concurrent requests. -/
def processRequest (m : StatsMap) (r : LogicalRequest) : StatsMap :=
  let m1 := recordAttempt m r.name r.now
  match r.outcome with
  | .failed => recordError m1 r.name
  | .succeeded tin tout => recordTokens m1 r.name tin tout

/-- The statistics-store states reachable from the empty store. -/
def runRequests (rs : List LogicalRequest) : StatsMap :=
  rs.foldl processRequest []

/-- Error message for an out-of-range test index (Go interpolates the
index; the text is abstracted). -/
def msgInvalidIndex : Str := ("Invalid endpoint index".toList)

/-- Error message for an unsupported transformer kind. -/
def msgUnsupportedTransformer : Str := ("Unsupported transformer".toList)

/-- Method `App.TestEndpoint` (`src/app.go`) as a function of the endpoint list,
the probed index, the network's behaviour and the engine statistics store.
The store is threaded through unchanged because the Go method never touches
`a.proxy`'s statistics: every branch returns the incoming `stats`. -/
def testEndpoint (eps : List Endpoint) (index : Int) (net : HttpRes) (stats : StatsMap) :
    TestResult × StatsMap :=
  if index < 0 ∨ (eps.length : Int) ≤ index then
    ({ success := false, message := msgInvalidIndex }, stats)
  else
    match buildTestRequest (eps.getD index.toNat dfltEndpoint) with
    | none => ({ success := false, message := msgUnsupportedTransformer }, stats)
    | some _ =>
      match net with
      | .transportError m => ({ success := false, message := m }, stats)
      | .response status body =>
        if status = 200 then ({ success := true, message := body }, stats)
        else ({ success := false, message := body }, stats)

/-- The signals `main` (`src/unnamed/part_001`) waits for via
`signal.Notify(sigChan, syscall.SIGINT, syscall.SIGTERM)`. -/
inductive Sig
  | sigint
  | sigterm
deriving DecidableEq, Repr

/-- The failure modes one run of the host process can encounter. -/
structure HostRun where
  configLoadFails : Bool
  staticSetupFails : Bool
  bindFails : Bool
  signal : Sig
deriving DecidableEq, Repr

/-- Method `App.Startup` (`src/app.go`): a failing config path or a failing
`config.Load` is logged at warn level and replaced by the default config;
every path of the method ends in `return nil`, so it reports no error even
when the configuration is invalid. -/
def startupError (_configLoadFails : Bool) : Option AppError := none

/-- The exit code of `main` (`src/unnamed/part_001`): `os.Exit(1)` if
`Startup` or `SetupStaticFiles` errors; the listener is started in a
goroutine whose error is only logged (`bindFails` never reaches an
`os.Exit`); after SIGINT or SIGTERM the process shuts down and `main`
returns, i.e. exits 0. -/
def mainExitCode (r : HostRun) : Nat :=
  match startupError r.configLoadFails with
  | some _ => 1
  | none => if r.staticSetupFails then 1 else 0

/-! ## Helper lemmas about the Go string trimming -/

theorem trimPrefix_suffix (s pre : Str) : trimPrefix s pre <:+ s := by
  unfold trimPrefix
  split
  · exact List.drop_suffix _ _
  · exact List.suffix_rfl

theorem trimSuffix_isPrefix (s suf : Str) : trimSuffix s suf <+: s := by
  unfold trimSuffix
  split
  · exact List.take_prefix _ _
  · exact List.prefix_rfl

theorem normalizeAPIUrl_eq (s : Str) :
    normalizeAPIUrl s = trimSuffix (stripSchemes s) strSlash := rfl

theorem stripSchemes_suffix (s : Str) : stripSchemes s <:+ s :=
  (trimPrefix_suffix (trimPrefix s strHttpsScheme) strHttpScheme).trans
    (trimPrefix_suffix s strHttpsScheme)

theorem trimSuffix_append (s suf : Str) (h : suf <:+ s) :
    trimSuffix s suf ++ suf = s := by
  obtain ⟨p, hp⟩ := h
  unfold trimSuffix
  rw [if_pos (List.isSuffixOf_iff_suffix.mpr ⟨p, hp⟩)]
  subst hp
  rw [List.length_append, Nat.add_sub_cancel, List.take_left]

theorem normalizeAPIUrl_no_scheme (s p : Str) (h : ¬ p <+: stripSchemes s) :
    ¬ p <+: normalizeAPIUrl s := fun hc =>
  h (List.IsPrefix.trans hc (trimSuffix_isPrefix (stripSchemes s) strSlash))

theorem normalizeAPIUrl_no_trailing_slash (s : Str) (h : ¬ strDoubleSlash <:+ s) :
    ¬ strSlash <:+ normalizeAPIUrl s := by
  intro hc
  rw [normalizeAPIUrl_eq] at hc
  by_cases ht : strSlash.isSuffixOf (stripSchemes s)
  · have hdecomp := trimSuffix_append (stripSchemes s) strSlash
      (List.isSuffixOf_iff_suffix.mp ht)
    obtain ⟨q, hq⟩ := hc
    have h2 : strDoubleSlash <:+ stripSchemes s := by
      refine ⟨q, ?_⟩
      rw [← hdecomp, ← hq, List.append_assoc]
      rfl
    exact h (h2.trans (stripSchemes_suffix s))
  · have heq : trimSuffix (stripSchemes s) strSlash = stripSchemes s := by
      unfold trimSuffix
      rw [if_neg ht]
    rw [heq] at hc
    exact ht (List.isSuffixOf_iff_suffix.mpr hc)

/-! ## C1 — the port-update operation does not rebind the listener -/

/-- C1 (counterexample): updating the port from 8080 to the valid port 9090
succeeds, yet the listener stays bound to 8080 — subsequent requests are
*not* served on the new port; the change waits for a process restart. -/
theorem updatePort_rebind_counterexample :
    (updatePort ⟨8080, 8080⟩ 9090).2 = .ok () ∧
    (updatePort ⟨8080, 8080⟩ 9090).1.listenPort = 8080 ∧ (8080 : Int) ≠ 9090 := by
  decide

/-- C1 (amended): for every valid port (1..65535) `UpdatePort` stores the
new port in the configuration and reports success, but the port the
listener is bound to is left untouched; the new port takes effect only
after the process restarts. -/
theorem updatePort_does_not_rebind_listener (s : AppNet) (p : Int)
    (h1 : 1 ≤ p) (h2 : p ≤ 65535) :
    updatePort s p = ({ s with configPort := p }, .ok ()) ∧
    (updatePort s p).1.listenPort = s.listenPort := by
  have hc : ¬ (p < 1 ∨ 65535 < p) := by omega
  unfold updatePort
  rw [if_neg hc]
  exact ⟨rfl, rfl⟩

theorem updatePort_does_not_rebind_listener_witness :
    updatePort ⟨1234, 1234⟩ 8080 = (⟨8080, 1234⟩, .ok ()) ∧
    (updatePort ⟨1234, 1234⟩ 8080).1.listenPort = 1234 :=
  updatePort_does_not_rebind_listener ⟨1234, 1234⟩ 8080 (by decide) (by decide)

/-! ## C5 — exit codes of the host process -/

/-- C5 (counterexample): a run whose config load fails exits 0 (Startup
falls back to the default config), not 1; a run whose bind fails exits 0
(the error is only logged in the background goroutine), not 2; a SIGINT
run exits 0, not 130. -/
theorem mainExitCode_counterexample :
    mainExitCode { configLoadFails := true, staticSetupFails := false,
                   bindFails := false, signal := .sigint } = 0 ∧
    mainExitCode { configLoadFails := false, staticSetupFails := false,
                   bindFails := true, signal := .sigterm } = 0 ∧
    (0 : Nat) ≠ 1 ∧ (0 : Nat) ≠ 2 ∧ (0 : Nat) ≠ 130 := by
  decide

/-- C5 (amended): the host process exits 1 exactly when embedded
static-asset setup fails, and 0 otherwise — including after SIGINT/SIGTERM
and when the config load or the port bind failed; exit codes 2 and 130 are
never produced. -/
theorem mainExitCode_values (r : HostRun) :
    mainExitCode r = (if r.staticSetupFails then 1 else 0) ∧
    mainExitCode r ≠ 2 ∧ mainExitCode r ≠ 130 := by
  obtain ⟨c, st, b, sg⟩ := r
  cases st <;> simp [mainExitCode, startupError]

/-! ## C6 — removing the last endpoint is allowed -/

/-- C6: removing the only remaining endpoint succeeds with an empty list,
because `RemoveEndpoint` skips validation when no endpoints are left —
even though validation itself rejects an empty list. -/
theorem removeEndpoint_last_allowed (e : Endpoint) :
    removeEndpoint [e] 0 = ([], .ok ()) ∧
    validateEndpoints [] = .error .invalidPool := by
  constructor
  · unfold removeEndpoint
    rw [if_neg (by simp : ¬ ((0 : Int) < 0 ∨ (([e].length : Nat) : Int) ≤ 0))]
    rfl
  · decide

/-! ## C8 — the connection test leaves the statistics store unchanged -/

/-- C8: whatever the index, the network outcome and the prior statistics,
`TestEndpoint` returns the statistics store exactly as it found it — no
request, error or token counter moves — and the probe uses the dedicated
30-second client constructed inside `TestEndpoint`. -/
theorem testEndpoint_stats_frame (eps : List Endpoint) (i : Int)
    (net : HttpRes) (stats : StatsMap) :
    (testEndpoint eps i net stats).2 = stats ∧
    testEndpointClient.timeoutSeconds = 30 := by
  refine ⟨?_, rfl⟩
  unfold testEndpoint
  repeat' split
  all_goals rfl

/-! ## C10 — out-of-range indices are rejected and change nothing -/

/-- C10: for every index below 0 or at/past the endpoint count,
`RemoveEndpoint`, `UpdateEndpoint` and `ToggleEndpoint` return the
invalid-index error with the endpoint list unchanged, and `TestEndpoint`
returns a failure result without touching the statistics. -/
theorem invalid_index_rejected (eps : List Endpoint) (i : Int)
    (name apiUrl apiKey transformer model remark : Str) (enabled : Bool)
    (net : HttpRes) (stats : StatsMap)
    (h : i < 0 ∨ (eps.length : Int) ≤ i) :
    removeEndpoint eps i = (eps, .error (.invalidIndex i)) ∧
    updateEndpoint eps i name apiUrl apiKey transformer model remark
      = (eps, .error (.invalidIndex i)) ∧
    toggleEndpoint eps i enabled = (eps, .error (.invalidIndex i)) ∧
    (testEndpoint eps i net stats).1.success = false ∧
    (testEndpoint eps i net stats).2 = stats := by
  refine ⟨?_, ?_, ?_, ?_, ?_⟩
  · unfold removeEndpoint; rw [if_pos h]
  · unfold updateEndpoint; rw [if_pos h]
  · unfold toggleEndpoint; rw [if_pos h]
  · unfold testEndpoint; rw [if_pos h]
  · unfold testEndpoint; rw [if_pos h]

/-! ## C3 / C4 — shape of the outbound test request -/

theorem buildTestRequest_claude (ep : Endpoint) (h : effTransformer ep = strClaude) :
    buildTestRequest ep =
      some { url := strHttpsScheme ++ ep.apiUrl ++ pathMessages
             headers := [(hdrContentType, valAppJson), (hdrXApiKey, ep.apiKey),
                         (hdrAnthropicVersion, valAnthropicVersion)]
             query := [] } := by
  unfold buildTestRequest
  rw [h, if_pos rfl]

theorem buildTestRequest_openai (ep : Endpoint) (h : effTransformer ep = strOpenai) :
    buildTestRequest ep =
      some { url := strHttpsScheme ++ ep.apiUrl ++ pathChatCompletions
             headers := [(hdrContentType, valAppJson),
                         (hdrAuthorization, strBearer ++ ep.apiKey)]
             query := [] } := by
  unfold buildTestRequest
  rw [h, if_neg (by decide), if_pos rfl]

theorem buildTestRequest_gemini (ep : Endpoint) (h : effTransformer ep = strGemini) :
    buildTestRequest ep =
      some { url := strHttpsScheme ++ ep.apiUrl ++
               (pathGeminiModels ++ (if ep.model = [] then strGeminiPro else ep.model) ++
                 pathGenerateContent)
             headers := [(hdrContentType, valAppJson)]
             query := [(strKeyParam, ep.apiKey)] } := by
  unfold buildTestRequest
  rw [h, if_neg (by decide), if_neg (by decide), if_pos rfl]

/-- C3: the credential placement of every outbound test request follows the
upstream's kind — `x-api-key` plus `anthropic-version` headers for claude,
an `Authorization: Bearer` header for openai, and for gemini the `key`
query parameter with no credential-carrying header (`Content-Type` is the
only header). -/
theorem testRequest_auth_placement (ep : Endpoint) (req : TestRequest)
    (h : buildTestRequest ep = some req) :
    (effTransformer ep = strClaude →
      req.headers = [(hdrContentType, valAppJson), (hdrXApiKey, ep.apiKey),
                     (hdrAnthropicVersion, valAnthropicVersion)] ∧ req.query = []) ∧
    (effTransformer ep = strOpenai →
      req.headers = [(hdrContentType, valAppJson),
                     (hdrAuthorization, strBearer ++ ep.apiKey)] ∧ req.query = []) ∧
    (effTransformer ep = strGemini →
      req.headers = [(hdrContentType, valAppJson)] ∧
      req.query = [(strKeyParam, ep.apiKey)]) := by
  refine ⟨fun hk => ?_, fun hk => ?_, fun hk => ?_⟩
  · rw [buildTestRequest_claude ep hk, Option.some.injEq] at h
    subst h
    exact ⟨rfl, rfl⟩
  · rw [buildTestRequest_openai ep hk, Option.some.injEq] at h
    subst h
    exact ⟨rfl, rfl⟩
  · rw [buildTestRequest_gemini ep hk, Option.some.injEq] at h
    subst h
    exact ⟨rfl, rfl⟩

/-- A gemini endpoint used to witness the request-shape theorems. -/
def epWitGemini : Endpoint :=
  { name := ("g".toList), apiUrl := ("example.com".toList), apiKey := ("secret".toList),
    enabled := true, transformer := ("gemini".toList), model := ("gemini-1.5-pro".toList),
    remark := [] }

/-- The request `TestEndpoint` builds for `epWitGemini`. -/
def reqWitGemini : TestRequest :=
  { url := ("https://example.com/v1beta/models/gemini-1.5-pro:generateContent".toList)
    headers := [(hdrContentType, valAppJson)]
    query := [(strKeyParam, ("secret".toList))] }

theorem testRequest_auth_placement_witness :
    reqWitGemini.headers = [(hdrContentType, valAppJson)] ∧
    reqWitGemini.query = [(strKeyParam, epWitGemini.apiKey)] :=
  (testRequest_auth_placement epWitGemini reqWitGemini (by decide)).2.2 (by decide)

/-- C4: the URL of every outbound test request is `https://` (scheme
forced) followed by the stored host and the kind-specific path —
`/v1/messages` for claude, `/v1/chat/completions` for openai, and
`/v1beta/models/{model}:generateContent` with the (defaulted) model
embedded in the path for gemini. -/
theorem testRequest_url_shape (ep : Endpoint) (req : TestRequest)
    (h : buildTestRequest ep = some req) :
    (effTransformer ep = strClaude →
      req.url = strHttpsScheme ++ ep.apiUrl ++ pathMessages) ∧
    (effTransformer ep = strOpenai →
      req.url = strHttpsScheme ++ ep.apiUrl ++ pathChatCompletions) ∧
    (effTransformer ep = strGemini →
      req.url = strHttpsScheme ++ ep.apiUrl ++
        (pathGeminiModels ++ (if ep.model = [] then strGeminiPro else ep.model) ++
          pathGenerateContent)) := by
  refine ⟨fun hk => ?_, fun hk => ?_, fun hk => ?_⟩
  · rw [buildTestRequest_claude ep hk, Option.some.injEq] at h
    subst h
    rfl
  · rw [buildTestRequest_openai ep hk, Option.some.injEq] at h
    subst h
    rfl
  · rw [buildTestRequest_gemini ep hk, Option.some.injEq] at h
    subst h
    rfl

/-- A claude endpoint (with the empty transformer that defaults to claude)
used to witness the URL-shape theorem. -/
def epWitClaude : Endpoint :=
  { name := ("c".toList), apiUrl := ("api.anthropic.com".toList), apiKey := ("k1".toList),
    enabled := true, transformer := [], model := [], remark := [] }

/-- The request `TestEndpoint` builds for `epWitClaude`. -/
def reqWitClaude : TestRequest :=
  { url := ("https://api.anthropic.com/v1/messages".toList)
    headers := [(hdrContentType, valAppJson), (hdrXApiKey, ("k1".toList)),
                (hdrAnthropicVersion, valAnthropicVersion)]
    query := [] }

theorem testRequest_url_shape_witness :
    reqWitClaude.url = strHttpsScheme ++ epWitClaude.apiUrl ++ pathMessages :=
  (testRequest_url_shape epWitClaude reqWitClaude (by decide)).1 (by decide)

/-! ## List.set / getD helper lemmas -/

theorem getD_set_self {α : Type} (l : List α) (i : Nat) (a d : α)
    (h : i < l.length) : (l.set i a).getD i d = a := by
  induction l generalizing i with
  | nil => simp at h
  | cons x xs ih =>
    cases i with
    | zero => rfl
    | succ n => simpa using ih n (by simpa using h)

theorem getD_set_ne {α : Type} (l : List α) (i j : Nat) (a d : α)
    (h : j ≠ i) : (l.set i a).getD j d = l.getD j d := by
  induction l generalizing i j with
  | nil => rfl
  | cons x xs ih =>
    cases i with
    | zero =>
      cases j with
      | zero => exact absurd rfl h
      | succ m => simp
    | succ n =>
      cases j with
      | zero => simp
      | succ m => simpa using ih n m (fun hh => h (by rw [hh]))

theorem invalid_index_rejected_witness :
    removeEndpoint [dfltEndpoint] 1 = ([dfltEndpoint], .error (.invalidIndex 1)) ∧
    updateEndpoint [dfltEndpoint] 1 [] [] [] [] [] []
      = ([dfltEndpoint], .error (.invalidIndex 1)) ∧
    toggleEndpoint [dfltEndpoint] 1 true = ([dfltEndpoint], .error (.invalidIndex 1)) ∧
    (testEndpoint [dfltEndpoint] 1 (.response 200 []) []).1.success = false ∧
    (testEndpoint [dfltEndpoint] 1 (.response 200 []) []).2 = [] :=
  invalid_index_rejected [dfltEndpoint] 1 [] [] [] [] [] [] true
    (.response 200 []) [] (by decide)

/-! ## C9 — UpdateEndpoint preserves the enabled flag -/

/-- C9 (amended): for every in-range index, `UpdateEndpoint` installs the
supplied name, credential, transformer kind (an empty transformer becoming
`"claude"`), model and remark, stores the supplied apiUrl in normalized
form, keeps the endpoint's enabled flag exactly as it was, and leaves every
other endpoint untouched. -/
theorem updateEndpoint_preserves_enabled (eps : List Endpoint) (i : Int)
    (name apiUrl apiKey transformer model remark : Str)
    (h0 : 0 ≤ i) (h1 : i < (eps.length : Int)) :
    ((updateEndpoint eps i name apiUrl apiKey transformer model remark).1.getD i.toNat
        dfltEndpoint).enabled = (eps.getD i.toNat dfltEndpoint).enabled ∧
    ((updateEndpoint eps i name apiUrl apiKey transformer model remark).1.getD i.toNat
        dfltEndpoint).name = name ∧
    ((updateEndpoint eps i name apiUrl apiKey transformer model remark).1.getD i.toNat
        dfltEndpoint).apiKey = apiKey ∧
    ((updateEndpoint eps i name apiUrl apiKey transformer model remark).1.getD i.toNat
        dfltEndpoint).transformer = (if transformer = [] then strClaude else transformer) ∧
    ((updateEndpoint eps i name apiUrl apiKey transformer model remark).1.getD i.toNat
        dfltEndpoint).model = model ∧
    ((updateEndpoint eps i name apiUrl apiKey transformer model remark).1.getD i.toNat
        dfltEndpoint).remark = remark ∧
    ((updateEndpoint eps i name apiUrl apiKey transformer model remark).1.getD i.toNat
        dfltEndpoint).apiUrl = normalizeAPIUrl apiUrl ∧
    (updateEndpoint eps i name apiUrl apiKey transformer model remark).1.length
      = eps.length ∧
    ∀ j : Nat, j ≠ i.toNat →
      (updateEndpoint eps i name apiUrl apiKey transformer model remark).1.getD j
          dfltEndpoint = eps.getD j dfltEndpoint := by
  have hc : ¬ (i < 0 ∨ (eps.length : Int) ≤ i) := by omega
  have hlt : i.toNat < eps.length := by omega
  unfold updateEndpoint
  rw [if_neg hc]
  refine ⟨?_, ?_, ?_, ?_, ?_, ?_, ?_, ?_, ?_⟩
  · simp [getD_set_self, hlt]
  · simp [getD_set_self, hlt]
  · simp [getD_set_self, hlt]
  · simp [getD_set_self, hlt]
  · simp [getD_set_self, hlt]
  · simp [getD_set_self, hlt]
  · simp [getD_set_self, hlt]
  · simp
  · intro j hj
    exact getD_set_ne _ _ _ _ _ hj

/-- A disabled endpoint used in the C9 instances. -/
def epC9 : Endpoint :=
  { name := ("old".toList), apiUrl := ("old.example.com".toList), apiKey := ("ok".toList),
    enabled := false, transformer := strClaude, model := [], remark := [] }

theorem updateEndpoint_preserves_enabled_witness :
    ((updateEndpoint [epC9] 0 ("new".toList) ("api.example.com".toList) ("k".toList) [] [] []).1.getD
        (0 : Int).toNat dfltEndpoint).enabled
      = ([epC9].getD (0 : Int).toNat dfltEndpoint).enabled :=
  (updateEndpoint_preserves_enabled [epC9] 0 ("new".toList) ("api.example.com".toList)
      ("k".toList) [] [] [] (by decide) (by decide)).1

/-- C9 (counterexample): the stored host is not literally the supplied
value — the supplied apiUrl `https://api.example.com/` is stored as
`api.example.com` (scheme stripped, trailing slash removed). -/
theorem updateEndpoint_supplied_host_counterexample :
    ((updateEndpoint [epC9] 0 ("new".toList) ("https://api.example.com/".toList) ("k".toList)
        [] [] []).1.getD 0 dfltEndpoint).apiUrl = ("api.example.com".toList) ∧
    ("api.example.com".toList) ≠ ("https://api.example.com/".toList) := by
  decide

/-! ## C2 — normal form of the stored upstream host -/

/-- C2 (amended): `AddEndpoint` and `UpdateEndpoint` store
`normalizeAPIUrl apiUrl` as the host — the input with one leading
`https://` stripped, then one leading `http://` stripped, then one
trailing `/` removed.  When the input carries at most one scheme prefix
(nothing scheme-like left after the stripping) and does not end in `//`,
the stored host begins with no scheme prefix and does not end with a
slash. -/
theorem normalizeAPIUrl_stored_host_normal_form
    (eps : List Endpoint) (name apiUrl apiKey transformer model remark : Str) (i : Int)
    (h1 : ¬ strHttpsScheme <+: stripSchemes apiUrl)
    (h2 : ¬ strHttpScheme <+: stripSchemes apiUrl)
    (h3 : ¬ strDoubleSlash <:+ apiUrl) :
    (addEndpoint eps name apiUrl apiKey transformer model remark).1.getLast?
      = some { name := name, apiUrl := normalizeAPIUrl apiUrl, apiKey := apiKey,
               enabled := true,
               transformer := if transformer = [] then strClaude else transformer,
               model := model, remark := remark } ∧
    ¬ strHttpsScheme <+: normalizeAPIUrl apiUrl ∧
    ¬ strHttpScheme <+: normalizeAPIUrl apiUrl ∧
    ¬ strSlash <:+ normalizeAPIUrl apiUrl ∧
    (0 ≤ i → i < (eps.length : Int) →
      ((updateEndpoint eps i name apiUrl apiKey transformer model remark).1.getD i.toNat
          dfltEndpoint).apiUrl = normalizeAPIUrl apiUrl) := by
  refine ⟨?_, normalizeAPIUrl_no_scheme _ _ h1, normalizeAPIUrl_no_scheme _ _ h2,
    normalizeAPIUrl_no_trailing_slash _ h3, fun hi0 hi1 => ?_⟩
  · unfold addEndpoint
    simp
  · have hc : ¬ (i < 0 ∨ (eps.length : Int) ≤ i) := by omega
    have hlt : i.toNat < eps.length := by omega
    unfold updateEndpoint
    rw [if_neg hc]
    simp [getD_set_self, hlt]

theorem normalizeAPIUrl_stored_host_normal_form_witness :
    ¬ strSlash <:+ normalizeAPIUrl ("https://api.example.com/".toList) :=
  (normalizeAPIUrl_stored_host_normal_form [] ("A".toList)
      ("https://api.example.com/".toList) ("k".toList) [] [] [] 0
      (by decide) (by decide) (by decide)).2.2.2.1

/-! ## C7 — errors never exceed requests -/

theorem getStat_setStat_self (m : StatsMap) (n : Str) (v : EndpointStat) :
    getStat (setStat m n v) n = v := by
  induction m with
  | nil => simp [setStat, getStat]
  | cons kv rest ih =>
    obtain ⟨k, w⟩ := kv
    by_cases hk : k = n
    · subst hk
      simp [setStat, getStat]
    · simp [setStat, getStat, hk, ih]

theorem getStat_setStat_ne (m : StatsMap) (n n' : Str) (v : EndpointStat)
    (h : n ≠ n') : getStat (setStat m n v) n' = getStat m n' := by
  induction m with
  | nil => simp [setStat, getStat, h]
  | cons kv rest ih =>
    obtain ⟨k, w⟩ := kv
    by_cases hk : k = n
    · subst hk
      simp [setStat, getStat, h]
    · simp only [setStat, if_neg hk]
      by_cases hk' : k = n'
      · simp [getStat, hk']
      · simp [getStat, hk', ih]

/-- The §8 invariant of the statistics store, per name. -/
def statsInv (m : StatsMap) : Prop :=
  ∀ n, (getStat m n).errors ≤ (getStat m n).requests

theorem statsInv_processRequest (m : StatsMap) (r : LogicalRequest)
    (h : statsInv m) : statsInv (processRequest m r) := by
  intro n
  unfold processRequest recordAttempt recordError recordTokens
  by_cases hn : r.name = n
  · subst hn
    cases r.outcome with
    | failed =>
      simp only [getStat_setStat_self]
      exact Nat.succ_le_succ (h r.name)
    | succeeded tin tout =>
      simp only [getStat_setStat_self]
      exact Nat.le_succ_of_le (h r.name)
  · cases r.outcome with
    | failed =>
      simp only [getStat_setStat_ne _ _ _ _ hn]
      exact h n
    | succeeded tin tout =>
      simp only [getStat_setStat_ne _ _ _ _ hn]
      exact h n

theorem statsInv_foldl (rs : List LogicalRequest) (m : StatsMap)
    (h : statsInv m) : statsInv (rs.foldl processRequest m) := by
  induction rs generalizing m with
  | nil => exact h
  | cons r rest ih => exact ih _ (statsInv_processRequest m r h)

/-- C7: in every statistics-store state reachable from the empty store by
logical requests (each of which records its attempt before its error or its
tokens), the error counter of every upstream name is at most its request
counter — `requests - errors` is never negative. -/
theorem stats_errors_le_requests (rs : List LogicalRequest) (n : Str) :
    (getStat (runRequests rs) n).errors ≤ (getStat (runRequests rs) n).requests :=
  statsInv_foldl rs [] (fun _ => Nat.le_refl 0) n

/-- C2 (counterexample): the claim's universal "never begins with a scheme
prefix and never ends with a slash" fails — the input
`http://https://example.com` is stored as `https://example.com`, which
begins with a scheme prefix, and `example.com//` normalizes to
`example.com/`, which still ends with a slash. -/
theorem normalizeAPIUrl_scheme_counterexample :
    (((addEndpoint [] ("A".toList) ("http://https://example.com".toList) ("k".toList)
        [] [] []).1.getLast?).getD dfltEndpoint).apiUrl = ("https://example.com".toList) ∧
    strHttpsScheme <+: ("https://example.com".toList) ∧
    strSlash <:+ normalizeAPIUrl ("example.com//".toList) := by
  decide
